import Mathlib

/-!
Verification of the SAS Copilot interactive assistant.

The development shallowly embeds the core of the repository:
the interactive session engine (src/ui/terminal.js, in its revision that
includes the help and mock branches, lines 230-337), the prompt handler
(src/core/assistant.js), the completion-gateway client
(src/services/openaiClient.js), the configuration object (config/env.js),
the log lifecycle manager (utils/logger.js) and the retention pruner
(clean-logs.ps1).

JavaScript strings are modelled as lists of characters; the JS string
operations used by the code (trim, toLowerCase, startsWith, slice,
split, includes and the alphanumeric regex test) are defined below with
their JS semantics on the character ranges the program uses (ASCII).
-/

namespace SasCopilot

/-- JavaScript strings, modelled as lists of characters. -/
abbrev Str := List Char

/-- Character data of a Lean string literal, used to write Str constants. -/
def chars (s : String) : Str := s.data

/-- Whitespace characters removed by the JS trim method. -/
def isWs (c : Char) : Bool := c = ' ' ∨ c = '\t' ∨ c = '\n' ∨ c = '\r'

/-- The JS trim method: removes leading and trailing whitespace. -/
def jsTrim (s : Str) : Str := ((s.dropWhile isWs).reverse.dropWhile isWs).reverse

/-- ASCII lowercasing of one character, the behaviour of toLowerCase on the
characters this program ever compares. -/
def toLowerChar (c : Char) : Char :=
  if 'A' ≤ c ∧ c ≤ 'Z' then Char.ofNat (c.toNat + 32) else c

/-- The JS toLowerCase method (on ASCII data). -/
def jsToLower (s : Str) : Str := s.map toLowerChar

/-- Membership in the character class of the regex for letters and digits. -/
def isAsciiAlnum (c : Char) : Bool :=
  ('a' ≤ c ∧ c ≤ 'z') ∨ ('A' ≤ c ∧ c ≤ 'Z') ∨ ('0' ≤ c ∧ c ≤ '9')

/-- The test of the regex character class on a whole string: true when some
character is an ASCII letter or digit. -/
def hasAlnum (s : Str) : Bool := s.any isAsciiAlnum

/-- The JS expression s.split(" ")[1]: the text between the first space and
the following space (none when the string has no space at all). -/
def jsSecond (s : Str) : Option Str :=
  match s.dropWhile (fun c => c != ' ') with
  | [] => none
  | _ :: rest => some (rest.takeWhile (fun c => c != ' '))

/-- The JS startsWith method. -/
def strStarts (p s : Str) : Bool := p.isPrefixOf s

/-! ## Configuration (config/env.js) -/

/-- The logging block of the configuration object. -/
structure LoggingConfig where
  enabled : Bool
  mode : Str
  directory : Str
  filename : Str
  retentionDays : Int
  deriving DecidableEq

/-- The configuration object exported by config/env.js.  The mutable mock
flag lives in the session state below, mirroring the runtime mutation of
the mock field by the mock command branch. -/
structure Config where
  personas : List (Str × Str)
  defaultPersona : Str
  logging : LoggingConfig
  exitCommands : List Str
  deriving DecidableEq

/-- Dynamic key lookup on the persona object: some prompt when the name is a
key of the persona registry. -/
def lookupPersona (cfg : Config) (name : Str) : Option Str :=
  List.lookup name cfg.personas

/-- Truthiness of the persona lookup (every registered prompt is a nonempty
string, hence truthy). -/
def isRegistered (cfg : Config) (name : Str) : Bool :=
  (lookupPersona cfg name).isSome

/-- The persona registry literal of config/env.js. -/
def defaultPersonas : List (Str × Str) :=
  [ (chars "sas", chars "You are a helpful SAS programming assistant. Respond with clean, well-formatted explanations and SAS code."),
    (chars "sql", chars "You are a knowledgeable SQL assistant. Answer queries with explanations and well-formatted SQL code."),
    (chars "mentor", chars "You are a thoughtful mentor. Provide practical career and technical advice with empathy and clarity."),
    (chars "debugger", chars "You are a code reviewer. Explain and help fix bugs in SAS code step by step."),
    (chars "teacher", chars "You are a SAS teacher. Explain concepts slowly with analogies and beginner-friendly examples.") ]

/-- The configuration produced by config/env.js when no environment
variable overrides any default. -/
def defaultConfig : Config :=
  { personas := defaultPersonas,
    defaultPersona := chars "sas",
    logging :=
      { enabled := true,
        mode := chars "rotate",
        directory := chars "logs",
        filename := chars "session.log",
        retentionDays := 7 },
    exitCommands := [chars "exit", chars "quit", chars "q", chars ":q"] }

/-! ## Completion gateway client (src/services/openaiClient.js) -/

/-- The system message chosen by getSasAssistantResponse: the selected
persona prompt, or the default persona prompt as fallback (the JS
or-expression; an empty string stands for the undefined result when both
lookups miss). -/
def systemMessage (cfg : Config) (persona : Str) : Str :=
  match lookupPersona cfg persona with
  | some m => m
  | none => (lookupPersona cfg cfg.defaultPersona).getD []

/-- One invocation of the completion endpoint: the user text and the system
message sent with it. -/
structure GatewayCall where
  userText : Str
  systemText : Str
  deriving DecidableEq

/-- The function getSasAssistantResponse: builds the system message from the
persona and issues exactly one completion request.  The network endpoint is
the oracle gw; the call record is returned alongside the outcome so that
theorems can speak about what was sent. -/
def getSasAssistantResponse (cfg : Config) (gw : Str → Str → Except Str Str)
    (promptText persona : Str) : GatewayCall × Except Str Str :=
  let sys := systemMessage cfg persona
  (⟨promptText, sys⟩, gw promptText sys)

/-! ## Prompt handler (src/core/assistant.js) -/

/-- The arguments of one logInteraction invocation. -/
structure LogEntry where
  input : Str
  response : Str
  persona : Str
  deriving DecidableEq

/-- User-visible terminal output events of the session engine. -/
inductive Out where
  | usageHint
  | invalidHint
  | personaSwitched (name : Str)
  | welcome (name : Str)
  | unknownPersona (tok : Str)
  | personaList
  | helpText
  | mockSet (enabledNow : Bool)
  | mockStatus (current : Bool)
  | farewell
  | response (text : Str) (persona : Str)
  deriving DecidableEq

/-- The function handlePrompt: calls getSasAssistantResponse, then on
success hands the raw response to the response renderer (the response
output event) and to logInteraction (the log entry).  There is no catch:
a gateway failure escapes as the rejection of the async handler. -/
def handlePrompt (cfg : Config) (gw : Str → Str → Except Str Str)
    (promptText persona : Str) :
    GatewayCall × Except Str (List Out × List LogEntry) :=
  let (call, res) := getSasAssistantResponse cfg gw promptText persona
  (call, res.map (fun r => ([Out.response r persona], [⟨promptText, r, persona⟩])))

/-! ## Session engine (src/ui/terminal.js, line handler) -/

/-- The mutable session state: the active persona of the closure and the
runtime-togglable mock flag of the configuration module. -/
structure SessionState where
  activePersona : Str
  mock : Bool
  deriving DecidableEq

/-- The persona names that the welcome-message literal of startTerminal
maps to a (nonempty, hence truthy) welcome text. -/
def welcomeKeys : List Str :=
  [chars "sas", chars "sql", chars "mentor", chars "debugger", chars "teacher"]

/-- Truthiness of the welcome-message lookup for a persona name. -/
def hasWelcome (k : Str) : Bool := welcomeKeys.contains k

/-- Everything one invocation of the line handler produces. -/
structure StepResult where
  st : SessionState
  outs : List Out
  calls : List GatewayCall
  logged : List LogEntry
  closed : Bool
  reprompted : Bool
  failed : Option Str
  deriving DecidableEq

/-- The line handler of startTerminal, branch for branch in source order:
empty line, no alphanumeric character, shorthand persona switch, the
persona command, the personas listing, the help aliases, the mock command,
the exit tokens, and finally the query branch that awaits handlePrompt and
re-prompts.  A gateway rejection in the query branch is recorded in the
failed field: the handler has no catch, so no output and no re-prompt
happen and the rejection escapes the async callback unhandled. -/
def handleLine (cfg : Config) (gw : Str → Str → Except Str Str)
    (st : SessionState) (input : Str) : StepResult :=
  let command := jsTrim input
  let lower := jsToLower command
  if command = [] then
    { st := st, outs := [Out.usageHint], calls := [], logged := [],
      closed := false, reprompted := true, failed := none }
  else if ¬ hasAlnum command then
    { st := st, outs := [Out.invalidHint], calls := [], logged := [],
      closed := false, reprompted := true, failed := none }
  else if strStarts (chars "/") command ∧ isRegistered cfg (command.drop 1) then
    let selected := command.drop 1
    { st := { st with activePersona := selected },
      outs := Out.personaSwitched selected ::
        (if hasWelcome selected then [Out.welcome selected] else []),
      calls := [], logged := [], closed := false, reprompted := true, failed := none }
  else if strStarts (chars "/persona ") lower then
    let selected := (jsSecond lower).getD []
    if isRegistered cfg selected then
      { st := { st with activePersona := selected },
        outs := Out.personaSwitched selected ::
          (if hasWelcome selected then [Out.welcome selected] else []),
        calls := [], logged := [], closed := false, reprompted := true, failed := none }
    else
      { st := st, outs := [Out.unknownPersona selected], calls := [], logged := [],
        closed := false, reprompted := true, failed := none }
  else if command = chars "/personas" then
    { st := st, outs := [Out.personaList], calls := [], logged := [],
      closed := false, reprompted := true, failed := none }
  else if command = chars "/help" ∨ command = chars "help" ∨ command = chars "?" then
    { st := st, outs := [Out.helpText], calls := [], logged := [],
      closed := false, reprompted := true, failed := none }
  else if lower = chars "/mock" ∨ strStarts (chars "/mock ") lower then
    match jsSecond lower with
    | some a =>
      if a = chars "on" then
        { st := { st with mock := true }, outs := [Out.mockSet true], calls := [],
          logged := [], closed := false, reprompted := true, failed := none }
      else if a = chars "off" then
        { st := { st with mock := false }, outs := [Out.mockSet false], calls := [],
          logged := [], closed := false, reprompted := true, failed := none }
      else
        { st := st, outs := [Out.mockStatus st.mock], calls := [], logged := [],
          closed := false, reprompted := true, failed := none }
    | none =>
      { st := st, outs := [Out.mockStatus st.mock], calls := [], logged := [],
        closed := false, reprompted := true, failed := none }
  else if lower ∈ cfg.exitCommands then
    { st := st, outs := [Out.farewell], calls := [], logged := [],
      closed := true, reprompted := false, failed := none }
  else
    let (call, res) := handlePrompt cfg gw input st.activePersona
    match res with
    | Except.ok (outs, logs) =>
      { st := st, outs := outs, calls := [call], logged := logs,
        closed := false, reprompted := true, failed := none }
    | Except.error e =>
      { st := st, outs := [], calls := [call], logged := [],
        closed := false, reprompted := false, failed := some e }

/-- The mock-independent observables of one handler invocation: the next
active persona, the gateway-call trace, the logger invocations, the
stream-closing flag and the escaped rejection. -/
def obsPart (r : StepResult) : Str × List GatewayCall × List LogEntry × Bool × Option Str :=
  (r.st.activePersona, r.calls, r.logged, r.closed, r.failed)

/-- The aggregate of a whole interactive run over a list of input lines. -/
structure RunResult where
  st : SessionState
  outs : List Out
  calls : List GatewayCall
  logged : List LogEntry
  closed : Bool
  failed : Option Str
  deriving DecidableEq

/-- The read-eval-print loop over a list of input lines: one handler
invocation per line, stopping when the stream was closed by an exit token
or when an unhandled rejection killed the process. -/
def runSession (cfg : Config) (gw : Str → Str → Except Str Str) :
    SessionState → List Str → RunResult
  | st, [] => { st := st, outs := [], calls := [], logged := [], closed := false, failed := none }
  | st, line :: rest =>
    let r := handleLine cfg gw st line
    if r.closed ∨ r.failed.isSome then
      { st := r.st, outs := r.outs, calls := r.calls, logged := r.logged,
        closed := r.closed, failed := r.failed }
    else
      let rr := runSession cfg gw r.st rest
      { st := rr.st, outs := r.outs ++ rr.outs, calls := r.calls ++ rr.calls,
        logged := r.logged ++ rr.logged, closed := rr.closed, failed := rr.failed }

/-! ## Log lifecycle manager (utils/logger.js) -/

/-- A clock reading, the relevant fields of a JS Date value. -/
structure Timestamp where
  year : Nat
  month : Nat
  day : Nat
  hour : Nat
  minute : Nat
  second : Nat
  ms : Nat
  deriving DecidableEq

/-- Field bounds of any clock reading a JS Date can render. -/
def Timestamp.wf (t : Timestamp) : Prop :=
  t.year < 10000 ∧ t.month < 100 ∧ t.day < 100 ∧ t.hour < 100 ∧
    t.minute < 100 ∧ t.second < 100 ∧ t.ms < 1000

instance (t : Timestamp) : Decidable t.wf := by
  unfold Timestamp.wf; infer_instance

/-- Two decimal digits, as written by toISOString for two-digit fields. -/
def pad2 (n : Nat) : Str := [Nat.digitChar (n / 10 % 10), Nat.digitChar (n % 10)]

/-- Three decimal digits, the millisecond field of toISOString. -/
def pad3 (n : Nat) : Str :=
  [Nat.digitChar (n / 100 % 10), Nat.digitChar (n / 10 % 10), Nat.digitChar (n % 10)]

/-- Four decimal digits, the year field of toISOString. -/
def pad4 (n : Nat) : Str :=
  [Nat.digitChar (n / 1000 % 10), Nat.digitChar (n / 100 % 10),
   Nat.digitChar (n / 10 % 10), Nat.digitChar (n % 10)]

/-- The toISOString rendering of a clock reading. -/
def isoRender (t : Timestamp) : Str :=
  pad4 t.year ++ chars "-" ++ pad2 t.month ++ chars "-" ++ pad2 t.day ++
    chars "T" ++ pad2 t.hour ++ chars ":" ++ pad2 t.minute ++ chars ":" ++
    pad2 t.second ++ chars "." ++ pad3 t.ms ++ chars "Z"

/-- The character substitution of the replace call in initLogFile: colons
and dots become dashes. -/
def sanitizeChar (c : Char) : Char := if c = ':' ∨ c = '.' then '-' else c

/-- The replace call of initLogFile applied to a whole string. -/
def sanitizeStamp (s : Str) : Str := s.map sanitizeChar

/-- The path.join of a directory and a file name (separator modelled as the
forward slash; path.resolve of the configured directory is modelled as the
directory itself, resolution against the working directory being outside
the program). -/
def joinPath (dir file : Str) : Str := dir ++ chars "/" ++ file

/-- File-system side effects the logger performs, recorded as a trace. -/
inductive FsOp where
  | mkdir (dir : Str)
  | truncate (p : Str)
  | append (p : Str)
  deriving DecidableEq

/-- The file system visible to the logger: the set of existing directories
and the file contents.  A later entry for the same path shadows an earlier
one, so prepending implements overwriting. -/
structure FsState where
  dirs : List Str
  files : List (Str × Str)
  deriving DecidableEq

/-- Content of a file, none when the file does not exist. -/
def getFile (fs : FsState) (p : Str) : Option Str := List.lookup p fs.files

/-- Writing a file (creating or replacing its content). -/
def setFile (fs : FsState) (p content : Str) : FsState :=
  { fs with files := (p, content) :: fs.files }

/-- Appending to a file, creating it when absent. -/
def appendFile (fs : FsState) (p extra : Str) : FsState :=
  setFile fs p ((getFile fs p).getD [] ++ extra)

/-- Failure injection for the three file-system calls the logger makes:
directory creation, the truncating write of overwrite mode, and the
append.  A true flag makes the corresponding call throw. -/
structure FsBehavior where
  mkdirFails : Bool
  truncateFails : Bool
  appendFails : Bool
  deriving DecidableEq

/-- The behaviour with no file-system failure. -/
def noFail : FsBehavior := ⟨false, false, false⟩

/-- The module-level mutable state of utils/logger.js. -/
structure LoggerState where
  initialized : Bool
  logPath : Str
  deriving DecidableEq

/-- The state at module load: not initialized, empty path. -/
def lsInit : LoggerState := ⟨false, []⟩

/-- The function initLogFile: a no-op when logging is disabled or the
module is already initialized; otherwise creates the log directory when
absent, then resolves the log path according to the mode: rotate derives a
fresh name from the sanitized timestamp, overwrite reuses the configured
filename and truncates it, and append (the default of the switch) reuses
the configured filename untouched.  An error value models an exception of
mkdirSync or of the truncating writeFileSync, neither of which the source
catches. -/
def initLogFile (cfg : Config) (fsb : FsBehavior) (now : Timestamp)
    (ls : LoggerState) (fs : FsState) :
    Except Str (LoggerState × FsState × List FsOp) :=
  if ¬ cfg.logging.enabled ∨ ls.initialized then Except.ok (ls, fs, [])
  else
    let logDir := cfg.logging.directory
    match (if logDir ∈ fs.dirs then Except.ok (fs, ([] : List FsOp))
           else if fsb.mkdirFails then Except.error (chars "EACCES: mkdir")
           else Except.ok ({ fs with dirs := logDir :: fs.dirs }, [FsOp.mkdir logDir])) with
    | Except.error e => Except.error e
    | Except.ok (fs1, ops1) =>
      let stamp := sanitizeStamp (isoRender now)
      if cfg.logging.mode = chars "rotate" then
        Except.ok ({ initialized := true,
                     logPath := joinPath logDir (chars "session_" ++ stamp ++ chars ".log") },
                   fs1, ops1)
      else if cfg.logging.mode = chars "overwrite" then
        let p := joinPath logDir cfg.logging.filename
        if fsb.truncateFails then Except.error (chars "EACCES: write")
        else Except.ok ({ initialized := true, logPath := p },
                        setFile fs1 p [], ops1 ++ [FsOp.truncate p])
      else
        Except.ok ({ initialized := true, logPath := joinPath logDir cfg.logging.filename },
                   fs1, ops1)

/-- The divider line of a formatted log block. -/
def divider : Str := chars "━━━━━━━━━━━━━━━━━━━━━━━━━━━━━━━━━━━━━━━━━━━━━━"

/-- The formatted block appended per interaction (timeText renders the
current time as toLocaleString does; its exact shape matters to no
property). -/
def formatEntry (e : LogEntry) (timeText : Str) : Str :=
  chars "\n" ++ divider ++ chars "\n🧑   Persona: " ++ e.persona ++
    chars "\n⏰      Time: " ++ timeText ++
    chars "\n🔹      User: " ++ jsTrim e.input ++
    chars "\n🔸 Assistant: " ++ jsTrim e.response ++ chars "\n" ++ divider ++ chars "\n"

/-- The function logInteraction: a no-op when logging is disabled;
otherwise runs initLogFile when not yet initialized (an init exception
propagates, nothing catches it), then appends the formatted block inside
the only try-catch of the module: an append failure is reported on the
diagnostic channel and swallowed. -/
def logInteraction (cfg : Config) (fsb : FsBehavior) (now : Timestamp)
    (timeText : Str) (e : LogEntry) (ls : LoggerState) (fs : FsState) :
    Except Str (LoggerState × FsState × List Str × List FsOp) :=
  if ¬ cfg.logging.enabled then Except.ok (ls, fs, [], [])
  else
    match (if ¬ ls.initialized then initLogFile cfg fsb now ls fs
           else Except.ok (ls, fs, [])) with
    | Except.error err => Except.error err
    | Except.ok (ls1, fs1, ops1) =>
      let entry := formatEntry e timeText
      if fsb.appendFails then
        Except.ok (ls1, fs1, [chars "[Logger Error]"], ops1)
      else
        Except.ok (ls1, appendFile fs1 ls1.logPath entry, [],
                   ops1 ++ [FsOp.append ls1.logPath])

/-! ## Retention pruner (clean-logs.ps1) -/

/-- Minutes per day, the unit conversion of AddDays against AddMinutes. -/
def minutesPerDay : Int := 1440

/-- The threshold computation of clean-logs.ps1, with time measured in
minutes: the default of seven days, overridden by a positive days value,
overridden by a positive minutes value. -/
def resolveThreshold (now retentionMinutes retentionDays : Int) : Int :=
  if retentionMinutes > 0 then now - retentionMinutes
  else if retentionDays > 0 then now - retentionDays * minutesPerDay
  else now - 7 * minutesPerDay

/-- One file of the log directory as the pruner sees it: its name, its
last-write time in minutes, and whether its removal would fail (a
non-terminating Remove-Item error under the default error action). -/
structure FileInfo where
  name : Str
  lastWrite : Int
  removeFails : Bool
  deriving DecidableEq

/-- Membership in the filter pattern for the log extension. -/
def hasLogExt (n : Str) : Bool := (chars ".log").isSuffixOf n

/-- Eligibility for deletion: log extension and last write before the
threshold. -/
def eligible (threshold : Int) (f : FileInfo) : Bool :=
  hasLogExt f.name && decide (f.lastWrite < threshold)

/-- The deletion pipeline: every eligible file is attempted in order; the
counter is incremented after each attempt whether or not Remove-Item
failed (its error is non-terminating, so the loop continues), and a file
survives only when it was ineligible or its removal failed. -/
def scanFiles (threshold : Int) : List FileInfo → Nat × List FileInfo
  | [] => (0, [])
  | f :: rest =>
    let (n, surv) := scanFiles threshold rest
    if eligible threshold f then
      (n + 1, if f.removeFails then f :: surv else surv)
    else (n, f :: surv)

/-- The terminal report of a pruner run: the early exit with status code 1
when the directory is missing, or normal completion with the deletion
counter. -/
inductive PruneOutcome where
  | fatalExit (code : Nat)
  | completed (deleted : Nat)
  deriving DecidableEq

/-- The message printed when the log directory does not exist. -/
def missingDirMsg : Str := chars "Log directory not found"

/-- The summary printed when no file was eligible. -/
def noneEligibleMsg : Str := chars "No logs were eligible for deletion."

/-- The summary printed otherwise, carrying the counter. -/
def deletedSummary (n : Nat) : Str :=
  chars "Deleted " ++ Nat.toDigits 10 n ++ chars " log file(s)."

/-- Everything one pruner run reports and leaves behind. -/
structure PruneReport where
  outcome : PruneOutcome
  messages : List Str
  remaining : List FileInfo
  deriving DecidableEq

/-- The whole of clean-logs.ps1 after parameter resolution: report and
exit with status 1 when the directory is missing, otherwise compute the
threshold, run the deletion pipeline and print the summary for the
counter. -/
def prune (dirExists : Bool) (files : List FileInfo)
    (now retentionMinutes retentionDays : Int) : PruneReport :=
  if ¬ dirExists then
    { outcome := PruneOutcome.fatalExit 1, messages := [missingDirMsg], remaining := files }
  else
    let threshold := resolveThreshold now retentionMinutes retentionDays
    let (n, surv) := scanFiles threshold files
    { outcome := PruneOutcome.completed n,
      messages := [if n = 0 then noneEligibleMsg else deletedSummary n],
      remaining := surv }

/-! ## Concrete instances used by witnesses and counterexamples -/

/-- A gateway oracle that always succeeds with a fixed reply. -/
def gwEcho : Str → Str → Except Str Str := fun _ _ => Except.ok (chars "pong")

/-- A gateway oracle that always fails, modelling a network error of the
completion endpoint. -/
def gwNetFail : Str → Str → Except Str Str := fun _ _ => Except.error (chars "network error")

/-- The session state right after startup under the default configuration. -/
def st0 : SessionState := ⟨chars "sas", false⟩

/-- The default configuration with the logging mode switched to overwrite. -/
def cfgOverwrite : Config :=
  { defaultConfig with logging := { defaultConfig.logging with mode := chars "overwrite" } }

/-- The default configuration with the logging mode switched to append. -/
def cfgAppend : Config :=
  { defaultConfig with logging := { defaultConfig.logging with mode := chars "append" } }

/-- The default configuration with a single, capitalized exit token (the
value OPENAI_EXIT_COMMANDS=Quit produces). -/
def cfgQuit : Config := { defaultConfig with exitCommands := [chars "Quit"] }

/-- A clock reading used by witnesses. -/
def tsA : Timestamp := ⟨2025, 10, 11, 12, 30, 45, 123⟩

/-- A later clock reading used by witnesses. -/
def tsB : Timestamp := ⟨2025, 10, 11, 12, 30, 45, 124⟩

/-- The empty file system. -/
def fsEmpty : FsState := ⟨[], []⟩

/-- A well-formed command token: nonempty and free of whitespace (in
particular free of spaces), as any single token typed after the persona
command is. -/
def tokenOK (t : Str) : Prop := t ≠ [] ∧ ∀ c ∈ t, isWs c = false

/-- A log entry used by witnesses. -/
def entryW : LogEntry := ⟨chars "hi", chars "resp", chars "sas"⟩

/-- Another log entry used by witnesses. -/
def entryW2 : LogEntry := ⟨chars "q2", chars "r2", chars "sas"⟩

/-- The logger state the first record call resolves under the default
configuration at the clock reading tsA. -/
def lsW : LoggerState := ⟨true, chars "logs/session_2025-10-11T12-30-45-123Z.log"⟩

/-- The file system after that first record call. -/
def fsW : FsState :=
  appendFile ⟨[chars "logs"], []⟩ lsW.logPath (formatEntry entryW (chars "time"))

/-- A file system left behind by a previous run: the log directory exists
and the session file already holds old content. -/
def fsPrior : FsState := ⟨[chars "logs"], [(chars "logs/session.log", chars "OLD")]⟩

/-! ## Claim C1 -/

/-- C1: the spec demands that a gateway failure on a free-text query line
is reported to the user, does not terminate the process, and leads back to
the prompt.  The code has no catch around handlePrompt: evaluating the
line handler at the query "what is a join" with a failing gateway shows
that no output at all is produced, no re-prompt happens, and the rejection
escapes the async line handler (the failed field), so the process dies
with an unhandled rejection instead of reporting and re-prompting.  The
claim states the intended behaviour; the code lacks the handler. -/
theorem C1_gateway_failure_escapes_unhandled :
    handleLine defaultConfig gwNetFail st0 (chars "what is a join") =
      { st := st0, outs := [],
        calls := [⟨chars "what is a join", systemMessage defaultConfig (chars "sas")⟩],
        logged := [], closed := false, reprompted := false,
        failed := some (chars "network error") } := by
  rfl

/-! ## Claim C8 -/

/-- C8: the retention threshold obeys the precedence: minutes strictly
greater than zero beat days, days strictly greater than zero beat the
default, otherwise seven days apply; in particular zero minutes with three
days yields the three-day threshold. -/
theorem C8_retention_threshold_precedence :
    (∀ now m d : Int,
      (0 < m → resolveThreshold now m d = now - m) ∧
      (m ≤ 0 → 0 < d → resolveThreshold now m d = now - d * 1440) ∧
      (m ≤ 0 → d ≤ 0 → resolveThreshold now m d = now - 7 * 1440)) ∧
    (∀ now : Int, resolveThreshold now 0 3 = now - 3 * 1440) := by
  constructor
  · intro now m d
    refine ⟨fun h => ?_, fun h1 h2 => ?_, fun h1 h2 => ?_⟩ <;>
      simp only [resolveThreshold, minutesPerDay] <;> split_ifs <;> omega
  · intro now
    simp only [resolveThreshold, minutesPerDay]
    norm_num

/-- Witness for C8 at the concrete scenario of the spec: zero minutes and
three days give the three-day threshold. -/
theorem C8_retention_threshold_precedence_witness :
    ((0 : Int) ≤ 0) ∧ ((0 : Int) < 3) ∧
      resolveThreshold 100000 0 3 = 100000 - 3 * 1440 :=
  ⟨by norm_num, by norm_num,
    ((C8_retention_threshold_precedence.1 100000 0 3).2.1 (by norm_num) (by norm_num)).trans
      (by norm_num)⟩

/-! ## Claim C2 -/

/-- C2 counterexample: on the line " hello " (a query with surrounding
whitespace) the engine invokes the gateway with the raw, untrimmed line as
user text, which differs from the trimmed line L the claim promises. -/
theorem C2_counterexample :
    (handleLine defaultConfig gwEcho st0 (chars " hello ")).calls =
      [⟨chars " hello ", systemMessage defaultConfig (chars "sas")⟩] ∧
    chars " hello " ≠ jsTrim (chars " hello ") := by
  constructor
  · rfl
  · decide

/-- C2 amended: for every line whose trimmed form is nonempty, contains an
alphanumeric character and matches no command branch, the engine calls the
gateway exactly once, with the raw input line (equal to the trimmed line L
whenever the line carries no surrounding whitespace) as user text and the
active persona's system prompt as system message, and on success passes
the raw result to the renderer and the logger and re-prompts. -/
theorem C2_amended_single_gateway_call (cfg : Config) (gw : Str → Str → Except Str Str)
    (st : SessionState) (input r : Str)
    (h1 : jsTrim input ≠ [])
    (h2 : hasAlnum (jsTrim input) = true)
    (h3 : ¬ (strStarts (chars "/") (jsTrim input) ∧ isRegistered cfg ((jsTrim input).drop 1)))
    (h4 : strStarts (chars "/persona ") (jsToLower (jsTrim input)) = false)
    (h5 : jsTrim input ≠ chars "/personas")
    (h6 : ¬ (jsTrim input = chars "/help" ∨ jsTrim input = chars "help" ∨ jsTrim input = chars "?"))
    (h7 : ¬ (jsToLower (jsTrim input) = chars "/mock" ∨
             strStarts (chars "/mock ") (jsToLower (jsTrim input)) = true))
    (h8 : jsToLower (jsTrim input) ∉ cfg.exitCommands)
    (hgw : gw input (systemMessage cfg st.activePersona) = Except.ok r) :
    handleLine cfg gw st input =
      { st := st,
        outs := [Out.response r st.activePersona],
        calls := [⟨input, systemMessage cfg st.activePersona⟩],
        logged := [⟨input, r, st.activePersona⟩],
        closed := false, reprompted := true, failed := none } := by
  rw [handleLine]
  simp only []
  rw [if_neg h1, if_neg (by simp [h2]), if_neg h3, if_neg (by simp [h4]), if_neg h5,
      if_neg h6, if_neg (by simpa using h7), if_neg h8]
  simp only [handlePrompt, getSasAssistantResponse, hgw, Except.map]

/-- Witness for C2 at the query "what is a join" under the default
configuration. -/
theorem C2_amended_single_gateway_call_witness :
    (jsTrim (chars "what is a join") ≠ []) ∧
    (hasAlnum (jsTrim (chars "what is a join")) = true) ∧
    (¬ (strStarts (chars "/") (jsTrim (chars "what is a join")) ∧
        isRegistered defaultConfig ((jsTrim (chars "what is a join")).drop 1))) ∧
    (strStarts (chars "/persona ") (jsToLower (jsTrim (chars "what is a join"))) = false) ∧
    (jsTrim (chars "what is a join") ≠ chars "/personas") ∧
    (¬ (jsTrim (chars "what is a join") = chars "/help" ∨
        jsTrim (chars "what is a join") = chars "help" ∨
        jsTrim (chars "what is a join") = chars "?")) ∧
    (¬ (jsToLower (jsTrim (chars "what is a join")) = chars "/mock" ∨
        strStarts (chars "/mock ") (jsToLower (jsTrim (chars "what is a join"))) = true)) ∧
    (jsToLower (jsTrim (chars "what is a join")) ∉ defaultConfig.exitCommands) ∧
    (gwEcho (chars "what is a join") (systemMessage defaultConfig st0.activePersona) =
      Except.ok (chars "pong")) ∧
    handleLine defaultConfig gwEcho st0 (chars "what is a join") =
      { st := st0,
        outs := [Out.response (chars "pong") st0.activePersona],
        calls := [⟨chars "what is a join", systemMessage defaultConfig st0.activePersona⟩],
        logged := [⟨chars "what is a join", chars "pong", st0.activePersona⟩],
        closed := false, reprompted := true, failed := none } :=
  ⟨by decide, by decide, by decide, by decide, by decide, by decide, by decide, by decide, rfl,
    C2_amended_single_gateway_call defaultConfig gwEcho st0 (chars "what is a join")
      (chars "pong") (by decide) (by decide) (by decide) (by decide) (by decide) (by decide)
      (by decide) (by decide) rfl⟩

/-! ## Claim C9 -/

/-- Helper: the one-step unfolding of the deletion pipeline. -/
theorem scanFiles_cons (threshold : Int) (f : FileInfo) (rest : List FileInfo) :
    scanFiles threshold (f :: rest) =
      (if eligible threshold f then
        ((scanFiles threshold rest).1 + 1,
         if f.removeFails then f :: (scanFiles threshold rest).2
         else (scanFiles threshold rest).2)
       else ((scanFiles threshold rest).1, f :: (scanFiles threshold rest).2)) := rfl

/-- Helper: the counter of the deletion pipeline counts the eligible files
(attempted deletions, failed removals included). -/
theorem scanFiles_fst (threshold : Int) (files : List FileInfo) :
    (scanFiles threshold files).1 = files.countP (eligible threshold) := by
  induction files with
  | nil => rfl
  | cons f rest ih =>
    rw [scanFiles_cons, List.countP_cons]
    split_ifs with h <;> simp [ih, h]

/-- Helper: every survivor of the deletion pipeline was among the scanned
files. -/
theorem scanFiles_sub (threshold : Int) (files : List FileInfo) (x : FileInfo)
    (hx : x ∈ (scanFiles threshold files).2) : x ∈ files := by
  induction files with
  | nil => simp [scanFiles] at hx
  | cons g rest ih =>
    rw [scanFiles_cons] at hx
    split_ifs at hx with he hr
    · simp only [] at hx
      rcases List.mem_cons.mp hx with rfl | h
      · exact List.mem_cons_self _ _
      · exact List.mem_cons_of_mem _ (ih h)
    · exact List.mem_cons_of_mem _ (ih hx)
    · simp only [] at hx
      rcases List.mem_cons.mp hx with rfl | h
      · exact List.mem_cons_self _ _
      · exact List.mem_cons_of_mem _ (ih h)

/-- Helper: an eligible file whose removal does not fail never survives
the deletion pipeline; in particular a removal failure on one file does
not prevent the deletion of any other. -/
theorem scanFiles_removes (threshold : Int) (files : List FileInfo) (f : FileInfo)
    (hf : f ∈ files) (he : eligible threshold f = true) (hr : f.removeFails = false) :
    f ∉ (scanFiles threshold files).2 := by
  induction files with
  | nil => simp at hf
  | cons g rest ih =>
    rw [scanFiles_cons]
    rcases List.mem_cons.mp hf with rfl | hmem
    · rw [if_pos he, hr]
      simp only [if_false, ite_false]
      intro hc
      by_cases hrest : f ∈ rest
      · exact ih hrest hc
      · exact hrest (scanFiles_sub threshold rest f hc)
    · intro hc
      split_ifs at hc with he2 hr2
      · rcases List.mem_cons.mp (by simpa using hc) with rfl | h
        · rw [hr] at hr2; exact Bool.noConfusion hr2
        · exact ih hmem h
      · exact ih hmem (by simpa using hc)
      · rcases List.mem_cons.mp (by simpa using hc) with rfl | h
        · rw [he] at he2; exact he2 rfl
        · exact ih hmem h

/-- C9 counterexample: invoked on a missing directory, the pruner reports
the missing directory but terminates with exit status 1 (an error-level
exit that, invoked in-process by the build task, kills the calling shell)
and never reports a deletion count, contradicting the claim that a missing
directory does not raise to a fatal level. -/
theorem C9_counterexample :
    prune false [⟨chars "a.log", 0, false⟩] 100000 0 3 =
      { outcome := PruneOutcome.fatalExit 1, messages := [missingDirMsg],
        remaining := [⟨chars "a.log", 0, false⟩] } ∧
    ∀ n, (prune false [⟨chars "a.log", 0, false⟩] 100000 0 3).outcome ≠
      PruneOutcome.completed n := by
  refine ⟨by decide, fun n h => ?_⟩
  rw [show (prune false [⟨chars "a.log", 0, false⟩] 100000 0 3).outcome =
        PruneOutcome.fatalExit 1 from by decide] at h
  exact PruneOutcome.noConfusion h

/-- C9 amended: a missing directory is reported with its own message,
distinct from the zero-eligible-files summary, but the script exits with
status code 1 and reports no count; when the directory exists, per-file
deletion errors do not halt the scan (every eligible file whose removal
does not fail is deleted even when the removal of another fails), and the
pruner reports a count of attempted deletions. -/
theorem C9_amended_prune_error_policy (files : List FileInfo) (now m d : Int) :
    (prune false files now m d =
        { outcome := PruneOutcome.fatalExit 1, messages := [missingDirMsg],
          remaining := files } ∧
      missingDirMsg ≠ noneEligibleMsg) ∧
    ((prune true files now m d).outcome =
        PruneOutcome.completed (files.countP (eligible (resolveThreshold now m d)))) ∧
    (∀ f ∈ files, eligible (resolveThreshold now m d) f = true → f.removeFails = false →
        f ∉ (prune true files now m d).remaining) ∧
    ((prune true files now m d).messages =
        [if files.countP (eligible (resolveThreshold now m d)) = 0 then noneEligibleMsg
         else deletedSummary (files.countP (eligible (resolveThreshold now m d)))]) := by
  refine ⟨⟨by simp [prune], by decide⟩, ?_, ?_, ?_⟩
  · simp [prune, scanFiles_fst]
  · intro f hf he hr
    simpa [prune] using scanFiles_removes (resolveThreshold now m d) files f hf he hr
  · simp [prune, scanFiles_fst]

/-- Witness for C9 at a two-file directory where one removal fails. -/
theorem C9_amended_prune_error_policy_witness :
    ((⟨chars "a.log", 0, false⟩ : FileInfo) ∈
        [(⟨chars "a.log", 0, false⟩ : FileInfo), ⟨chars "b.log", 0, true⟩]) ∧
    (eligible (resolveThreshold 100000 0 3) ⟨chars "a.log", 0, false⟩ = true) ∧
    ((⟨chars "a.log", 0, false⟩ : FileInfo).removeFails = false) ∧
    (⟨chars "a.log", 0, false⟩ : FileInfo) ∉
      (prune true [⟨chars "a.log", 0, false⟩, ⟨chars "b.log", 0, true⟩] 100000 0 3).remaining :=
  ⟨by decide, by decide, by decide,
    (C9_amended_prune_error_policy
        [⟨chars "a.log", 0, false⟩, ⟨chars "b.log", 0, true⟩] 100000 0 3).2.2.1
      ⟨chars "a.log", 0, false⟩ (by decide) (by decide) (by decide)⟩

/-! ## Claim C4 -/

/-- Helper: when neither directory creation nor the truncating write
fails, initLogFile returns normally. -/
theorem initLogFile_ok (cfg : Config) (fsb : FsBehavior) (t : Timestamp)
    (ls : LoggerState) (fs : FsState)
    (hm : fsb.mkdirFails = false) (ht : fsb.truncateFails = false) :
    ∃ a, initLogFile cfg fsb t ls fs = Except.ok a := by
  simp only [initLogFile, hm, ht]
  split_ifs <;> first | exact ⟨_, rfl⟩ | simp_all

/-- C4 counterexample: with overwrite mode and a failing truncating write,
the very first logInteraction call (which runs the uncaught lazy
initialization) propagates the exception to its caller instead of catching
and reporting it, refuting the claim that any failure while writing the
log, truncation and directory creation included, is caught. -/
theorem C4_counterexample :
    logInteraction cfgOverwrite ⟨false, true, false⟩ tsA (chars "time")
      ⟨chars "hi", chars "resp", chars "sas"⟩ lsInit fsEmpty =
      Except.error (chars "EACCES: write") := by
  rfl

/-- C4 amended: only the append itself is guarded: an append failure is
caught, reported on the diagnostic channel and does not propagate, so
later turns proceed; but a failure during lazy initialization (directory
creation, and likewise overwrite truncation) is uncaught and propagates to
the caller. -/
theorem C4_amended_log_failure_policy (cfg : Config) (t : Timestamp) (x : Str)
    (e : LogEntry) (ls : LoggerState) (fs : FsState)
    (he : cfg.logging.enabled = true) :
    (∃ ls1 fs1 ops1,
      logInteraction cfg ⟨false, false, true⟩ t x e ls fs =
        Except.ok (ls1, fs1, [chars "[Logger Error]"], ops1)) ∧
    (ls.initialized = false → cfg.logging.directory ∉ fs.dirs →
      logInteraction cfg ⟨true, false, false⟩ t x e ls fs =
        Except.error (chars "EACCES: mkdir")) := by
  constructor
  · obtain ⟨⟨ls1, fs1, ops1⟩, hinit⟩ :=
      initLogFile_ok cfg ⟨false, false, true⟩ t ls fs rfl rfl
    by_cases h0 : ls.initialized
    · exact ⟨ls, fs, [], by simp [logInteraction, he, h0]⟩
    · exact ⟨ls1, fs1, ops1, by simp [logInteraction, he, h0, hinit]⟩
  · intro h1 h2
    simp [logInteraction, he, h1, initLogFile, h2]

/-- Witness for C4 under the default configuration on a fresh process and
an empty file system. -/
theorem C4_amended_log_failure_policy_witness :
    (defaultConfig.logging.enabled = true) ∧
    (lsInit.initialized = false) ∧
    (defaultConfig.logging.directory ∉ fsEmpty.dirs) ∧
    (∃ ls1 fs1 ops1,
      logInteraction defaultConfig ⟨false, false, true⟩ tsA (chars "time")
        ⟨chars "hi", chars "resp", chars "sas"⟩ lsInit fsEmpty =
        Except.ok (ls1, fs1, [chars "[Logger Error]"], ops1)) ∧
    (logInteraction defaultConfig ⟨true, false, false⟩ tsA (chars "time")
        ⟨chars "hi", chars "resp", chars "sas"⟩ lsInit fsEmpty =
      Except.error (chars "EACCES: mkdir")) :=
  ⟨rfl, rfl, by decide,
    (C4_amended_log_failure_policy defaultConfig tsA (chars "time")
      ⟨chars "hi", chars "resp", chars "sas"⟩ lsInit fsEmpty rfl).1,
    (C4_amended_log_failure_policy defaultConfig tsA (chars "time")
      ⟨chars "hi", chars "resp", chars "sas"⟩ lsInit fsEmpty rfl).2 rfl (by decide)⟩

/-! ## Claim C7 -/

/-- C7: initialization is idempotent within a process.  A first successful
record call from the fresh module state leaves the module initialized, and
every later call observes the same already-resolved path, re-runs neither
directory creation nor truncation (its only file-system operation is the
append to the resolved path) and leaves the module state untouched. -/
theorem C7_log_init_idempotent (cfg : Config) (t1 t2 : Timestamp) (x1 x2 : Str)
    (e1 e2 : LogEntry) (fs : FsState) (ls1 : LoggerState) (fs1 : FsState)
    (d1 : List Str) (ops1 : List FsOp)
    (he : cfg.logging.enabled = true)
    (h1 : logInteraction cfg noFail t1 x1 e1 lsInit fs = Except.ok (ls1, fs1, d1, ops1)) :
    ls1.initialized = true ∧
    logInteraction cfg noFail t2 x2 e2 ls1 fs1 =
      Except.ok (ls1, appendFile fs1 ls1.logPath (formatEntry e2 x2), [],
                 [FsOp.append ls1.logPath]) := by
  have hinit : ls1.initialized = true := by
    simp only [logInteraction, he, lsInit, initLogFile, noFail] at h1
    split_ifs at h1 <;>
      first
        | exact absurd trivial (by assumption)
        | exact (by assumption : False).elim
        | exact absurd (by assumption : ¬True ∨ False) (by simp)
        | (dsimp only at h1; simp only [Except.ok.injEq, Prod.mk.injEq] at h1; rw [← h1.1])
  refine ⟨hinit, ?_⟩
  simp [logInteraction, he, hinit, noFail]

/-- Witness for C7: two record calls under the default configuration from
a fresh process; the second observes the resolved path and only appends. -/
theorem C7_log_init_idempotent_witness :
    (defaultConfig.logging.enabled = true) ∧
    (logInteraction defaultConfig noFail tsA (chars "time") entryW lsInit fsEmpty =
      Except.ok (lsW, fsW, [], [FsOp.mkdir (chars "logs"), FsOp.append lsW.logPath])) ∧
    (lsW.initialized = true ∧
      logInteraction defaultConfig noFail tsB (chars "time2") entryW2 lsW fsW =
        Except.ok (lsW, appendFile fsW lsW.logPath (formatEntry entryW2 (chars "time2")), [],
          [FsOp.append lsW.logPath])) :=
  ⟨rfl, rfl,
    C7_log_init_idempotent defaultConfig tsA tsB (chars "time") (chars "time2") entryW entryW2
      fsEmpty lsW fsW [] [FsOp.mkdir (chars "logs"), FsOp.append lsW.logPath] rfl rfl⟩

/-! ## Claim C6 -/

theorem digitChar_inj : ∀ a < 10, ∀ b < 10, Nat.digitChar a = Nat.digitChar b → a = b := by
  decide

theorem sanitizeChar_digitChar : ∀ m < 10, sanitizeChar (Nat.digitChar m) = Nat.digitChar m := by
  decide

theorem sanitizeChar_digit_mod (k : Nat) :
    sanitizeChar (Nat.digitChar (k % 10)) = Nat.digitChar (k % 10) :=
  sanitizeChar_digitChar _ (Nat.mod_lt _ (by norm_num))

theorem chars_dash : chars "-" = ['-'] := rfl
theorem chars_T : chars "T" = ['T'] := rfl
theorem chars_Z : chars "Z" = ['Z'] := rfl
theorem chars_colon : chars ":" = [':'] := rfl
theorem chars_dot : chars "." = ['.'] := rfl
theorem sanitizeChar_dash : sanitizeChar '-' = '-' := by decide
theorem sanitizeChar_T : sanitizeChar 'T' = 'T' := by decide
theorem sanitizeChar_Z : sanitizeChar 'Z' = 'Z' := by decide
theorem sanitizeChar_colon : sanitizeChar ':' = '-' := by decide
theorem sanitizeChar_dot : sanitizeChar '.' = '-' := by decide

theorem sanitizeStamp_isoRender (t : Timestamp) :
    sanitizeStamp (isoRender t) =
      pad4 t.year ++ ['-'] ++ pad2 t.month ++ ['-'] ++ pad2 t.day ++
      ['T'] ++ pad2 t.hour ++ ['-'] ++ pad2 t.minute ++ ['-'] ++
      pad2 t.second ++ ['-'] ++ pad3 t.ms ++ ['Z'] := by
  simp only [sanitizeStamp, isoRender, chars_dash, chars_T, chars_Z, chars_colon, chars_dot,
    pad2, pad3, pad4, List.map_append, List.map_cons, List.map_nil,
    sanitizeChar_digit_mod, sanitizeChar_dash, sanitizeChar_T, sanitizeChar_Z,
    sanitizeChar_colon, sanitizeChar_dot]

theorem dchar_mod {a b : Nat} (h : Nat.digitChar (a % 10) = Nat.digitChar (b % 10)) :
    a % 10 = b % 10 :=
  digitChar_inj _ (Nat.mod_lt _ (by norm_num)) _ (Nat.mod_lt _ (by norm_num)) h

theorem stamp_inj (t1 t2 : Timestamp) (h1 : t1.wf) (h2 : t2.wf)
    (h : sanitizeStamp (isoRender t1) = sanitizeStamp (isoRender t2)) : t1 = t2 := by
  obtain ⟨y1, mo1, d1, hh1, mi1, s1, ms1⟩ := t1
  obtain ⟨y2, mo2, d2, hh2, mi2, s2, ms2⟩ := t2
  have hb1 : y1 < 10000 := h1.1
  have hb2 : mo1 < 100 := h1.2.1
  have hb3 : d1 < 100 := h1.2.2.1
  have hb4 : hh1 < 100 := h1.2.2.2.1
  have hb5 : mi1 < 100 := h1.2.2.2.2.1
  have hb6 : s1 < 100 := h1.2.2.2.2.2.1
  have hb7 : ms1 < 1000 := h1.2.2.2.2.2.2
  have hc1 : y2 < 10000 := h2.1
  have hc2 : mo2 < 100 := h2.2.1
  have hc3 : d2 < 100 := h2.2.2.1
  have hc4 : hh2 < 100 := h2.2.2.2.1
  have hc5 : mi2 < 100 := h2.2.2.2.2.1
  have hc6 : s2 < 100 := h2.2.2.2.2.2.1
  have hc7 : ms2 < 1000 := h2.2.2.2.2.2.2
  clear h1 h2
  rw [sanitizeStamp_isoRender, sanitizeStamp_isoRender] at h
  simp only [pad2, pad3, pad4, List.cons_append, List.nil_append, List.cons.injEq,
    and_true] at h
  obtain ⟨e1, e2, e3, e4, -, e5, e6, -, e7, e8, -, e9, e10, -, e11, e12, -, e13, e14, -,
    e15, e16, e17⟩ := h
  simp only [Timestamp.mk.injEq]
  refine ⟨?_, ?_, ?_, ?_, ?_, ?_, ?_⟩
  · have q1 := dchar_mod e1; have q2 := dchar_mod e2
    have q3 := dchar_mod e3; have q4 := dchar_mod e4
    omega
  · have q1 := dchar_mod e5; have q2 := dchar_mod e6; omega
  · have q1 := dchar_mod e7; have q2 := dchar_mod e8; omega
  · have q1 := dchar_mod e9; have q2 := dchar_mod e10; omega
  · have q1 := dchar_mod e11; have q2 := dchar_mod e12; omega
  · have q1 := dchar_mod e13; have q2 := dchar_mod e14; omega
  · have q1 := dchar_mod e15; have q2 := dchar_mod e16
    have q3 := dchar_mod e17; omega

theorem getFile_setFile (fs : FsState) (p c : Str) :
    getFile (setFile fs p c) p = some c := by
  simp [getFile, setFile, List.lookup]

theorem initLogFile_noFail_eq (cfg : Config) (t : Timestamp) (fs : FsState)
    (he : cfg.logging.enabled = true) :
    initLogFile cfg noFail t lsInit fs =
      (let fs1 := if cfg.logging.directory ∈ fs.dirs then fs
                  else { fs with dirs := cfg.logging.directory :: fs.dirs };
       let ops1 : List FsOp := if cfg.logging.directory ∈ fs.dirs then []
                  else [FsOp.mkdir cfg.logging.directory];
       if cfg.logging.mode = chars "rotate" then
         Except.ok (⟨true, joinPath cfg.logging.directory
             (chars "session_" ++ sanitizeStamp (isoRender t) ++ chars ".log")⟩, fs1, ops1)
       else if cfg.logging.mode = chars "overwrite" then
         Except.ok (⟨true, joinPath cfg.logging.directory cfg.logging.filename⟩,
           setFile fs1 (joinPath cfg.logging.directory cfg.logging.filename) [],
           ops1 ++ [FsOp.truncate (joinPath cfg.logging.directory cfg.logging.filename)])
       else
         Except.ok (⟨true, joinPath cfg.logging.directory cfg.logging.filename⟩, fs1, ops1)) := by
  simp only [initLogFile, he, noFail, lsInit]
  split_ifs <;>
    first
      | rfl
      | exact absurd trivial (by assumption)
      | exact (by assumption : False).elim
      | simp_all

theorem rotatePath_inj (dir : Str) (t1 t2 : Timestamp) (h1 : t1.wf) (h2 : t2.wf)
    (hne : t1 ≠ t2) :
    joinPath dir (chars "session_" ++ sanitizeStamp (isoRender t1) ++ chars ".log") ≠
    joinPath dir (chars "session_" ++ sanitizeStamp (isoRender t2) ++ chars ".log") := by
  intro h
  apply hne
  apply stamp_inj t1 t2 h1 h2
  unfold joinPath at h
  have h' := List.append_cancel_left h
  have h'' := List.append_cancel_right h'
  exact List.append_cancel_left h''

/-- C6: under overwrite mode the target file is empty immediately after the
first descriptor resolution of a process, regardless of any prior content;
under rotate mode two process lifetimes with distinct clock readings
resolve two distinct paths; under append mode the same configured path is
reused across process runs and no truncation operation is performed. -/
theorem C6_log_mode_behavior (cfg : Config) (fs fs2 : FsState) (t1 t2 : Timestamp)
    (he : cfg.logging.enabled = true) :
    (cfg.logging.mode = chars "overwrite" →
      ∀ ls1 fsA ops1, initLogFile cfg noFail t1 lsInit fs = Except.ok (ls1, fsA, ops1) →
        getFile fsA ls1.logPath = some []) ∧
    (cfg.logging.mode = chars "rotate" → t1.wf → t2.wf → t1 ≠ t2 →
      ∀ a b, initLogFile cfg noFail t1 lsInit fs = Except.ok a →
        initLogFile cfg noFail t2 lsInit fs2 = Except.ok b →
        a.1.logPath ≠ b.1.logPath) ∧
    (cfg.logging.mode = chars "append" →
      ∀ a b, initLogFile cfg noFail t1 lsInit fs = Except.ok a →
        initLogFile cfg noFail t2 lsInit fs2 = Except.ok b →
        a.1.logPath = joinPath cfg.logging.directory cfg.logging.filename ∧
        b.1.logPath = a.1.logPath ∧
        ∀ p, FsOp.truncate p ∉ a.2.2) := by
  refine ⟨?_, ?_, ?_⟩
  · intro hm ls1 fsA ops1 heq
    rw [initLogFile_noFail_eq cfg t1 fs he] at heq
    simp only [hm] at heq
    try rw [if_neg (show ¬(chars "overwrite" = chars "rotate") from by decide)] at heq
    try rw [if_pos (rfl : chars "overwrite" = chars "overwrite")] at heq
    try simp only [Except.ok.injEq, Prod.mk.injEq] at heq
    obtain ⟨rfl, rfl, rfl⟩ := heq
    exact getFile_setFile _ _ _
  · intro hm hw1 hw2 hne a b ha hb
    rw [initLogFile_noFail_eq cfg t1 fs he] at ha
    rw [initLogFile_noFail_eq cfg t2 fs2 he] at hb
    simp only [hm] at ha hb
    try rw [if_pos (rfl : chars "rotate" = chars "rotate")] at ha hb
    rw [← Except.ok.inj ha, ← Except.ok.inj hb]
    exact rotatePath_inj cfg.logging.directory t1 t2 hw1 hw2 hne
  · intro hm a b ha hb
    rw [initLogFile_noFail_eq cfg t1 fs he] at ha
    rw [initLogFile_noFail_eq cfg t2 fs2 he] at hb
    simp only [hm] at ha hb
    try rw [if_neg (show ¬(chars "append" = chars "rotate") from by decide)] at ha hb
    try rw [if_neg (show ¬(chars "append" = chars "overwrite") from by decide)] at ha hb
    rw [← Except.ok.inj ha, ← Except.ok.inj hb]
    refine ⟨rfl, rfl, ?_⟩
    intro p
    by_cases hd : cfg.logging.directory ∈ fs.dirs <;> simp [hd]


/-- Witness for C6 at the three modes: an overwrite resolution on a file
system holding old content, two rotate resolutions one millisecond apart,
and two append resolutions. -/
theorem C6_log_mode_behavior_witness :
    (cfgOverwrite.logging.mode = chars "overwrite" ∧
      getFile (setFile fsPrior (chars "logs/session.log") [])
        ((⟨true, chars "logs/session.log"⟩ : LoggerState).logPath) = some []) ∧
    (defaultConfig.logging.mode = chars "rotate" ∧ tsA.wf ∧ tsB.wf ∧ tsA ≠ tsB ∧
      ((⟨true, chars "logs/session_2025-10-11T12-30-45-123Z.log"⟩ : LoggerState), 
        (⟨[chars "logs"], []⟩ : FsState), [FsOp.mkdir (chars "logs")]).1.logPath ≠
      ((⟨true, chars "logs/session_2025-10-11T12-30-45-124Z.log"⟩ : LoggerState),
        (⟨[chars "logs"], []⟩ : FsState), [FsOp.mkdir (chars "logs")]).1.logPath) ∧
    (cfgAppend.logging.mode = chars "append" ∧
      ((⟨true, chars "logs/session.log"⟩ : LoggerState),
        (⟨[chars "logs"], []⟩ : FsState), [FsOp.mkdir (chars "logs")]).1.logPath =
        joinPath cfgAppend.logging.directory cfgAppend.logging.filename ∧
      (∀ p, FsOp.truncate p ∉
        ((⟨true, chars "logs/session.log"⟩ : LoggerState),
          (⟨[chars "logs"], []⟩ : FsState),
          ([FsOp.mkdir (chars "logs")] : List FsOp)).2.2)) :=
  ⟨⟨rfl,
    (C6_log_mode_behavior cfgOverwrite fsPrior fsPrior tsA tsB rfl).1 rfl
      ⟨true, chars "logs/session.log"⟩ (setFile fsPrior (chars "logs/session.log") [])
      [FsOp.truncate (chars "logs/session.log")] rfl⟩,
   ⟨rfl, by decide, by decide, by decide,
    (C6_log_mode_behavior defaultConfig fsEmpty fsEmpty tsA tsB rfl).2.1 rfl
      (by decide) (by decide) (by decide)
      (⟨true, chars "logs/session_2025-10-11T12-30-45-123Z.log"⟩, ⟨[chars "logs"], []⟩,
        [FsOp.mkdir (chars "logs")])
      (⟨true, chars "logs/session_2025-10-11T12-30-45-124Z.log"⟩, ⟨[chars "logs"], []⟩,
        [FsOp.mkdir (chars "logs")]) rfl rfl⟩,
   ⟨rfl,
    ((C6_log_mode_behavior cfgAppend fsEmpty fsEmpty tsA tsB rfl).2.2 rfl
      (⟨true, chars "logs/session.log"⟩, ⟨[chars "logs"], []⟩, [FsOp.mkdir (chars "logs")])
      (⟨true, chars "logs/session.log"⟩, ⟨[chars "logs"], []⟩, [FsOp.mkdir (chars "logs")])
      rfl rfl).1,
    ((C6_log_mode_behavior cfgAppend fsEmpty fsEmpty tsA tsB rfl).2.2 rfl
      (⟨true, chars "logs/session.log"⟩, ⟨[chars "logs"], []⟩, [FsOp.mkdir (chars "logs")])
      (⟨true, chars "logs/session.log"⟩, ⟨[chars "logs"], []⟩, [FsOp.mkdir (chars "logs")])
      rfl rfl).2.2⟩⟩


/-- Helper: the character order is the order of the code points. -/
theorem char_le_iff {a b : Char} : a ≤ b ↔ a.toNat ≤ b.toNat := Iff.rfl

/-- Helper: building a character from a scalar value below the surrogate
range preserves the value. -/
theorem toNat_ofNat_valid {n : Nat} (h : n < 55296) : (Char.ofNat n).toNat = n := by
  rw [Char.ofNat, dif_pos (Or.inl (show n < 55296 from h))]; rfl

/-- Helper: lowercasing can only produce a character below code point 65
when the input already is that character. -/
theorem toLowerChar_eq_low {c d : Char} (hd : d.toNat < 65) : toLowerChar c = d ↔ c = d := by
  unfold toLowerChar
  split_ifs with h
  · obtain ⟨ha1, ha2⟩ := h
    have e1 : ('A').toNat = 65 := rfl
    have e2 : ('Z').toNat = 90 := rfl
    have hc1 : 65 ≤ c.toNat := by have := char_le_iff.mp ha1; omega
    have hc2 : c.toNat ≤ 90 := by have := char_le_iff.mp ha2; omega
    constructor
    · intro he
      exfalso
      have hv := toNat_ofNat_valid (n := c.toNat + 32) (by omega)
      rw [he] at hv
      omega
    · intro he
      exfalso
      subst he
      omega
  · exact Iff.rfl

/-- Helper: a non-whitespace character is not the space. -/
theorem isWs_space_of_eq {c : Char} (h : isWs c = false) : c ≠ ' ' := by
  intro hc; subst hc; exact Bool.noConfusion h

/-- Helper: lowercasing never turns a non-space character into a space. -/
theorem toLowerChar_ne_space {c : Char} (h : c ≠ ' ') : toLowerChar c ≠ ' ' := by
  intro he
  exact h ((toLowerChar_eq_low (d := ' ') (by decide)).mp he)

/-- Helper: dropWhile stops at a head the predicate rejects. -/
theorem dropWhile_cons_of_neg {p : Char → Bool} {a : Char} {l : Str} (h : p a = false) :
    (a :: l).dropWhile p = a :: l := by
  simp [List.dropWhile, h]

/-- Helper: a string with a non-whitespace head and a whitespace-free,
nonempty tail segment is its own trim. -/
theorem jsTrim_eq_self_append {a : Char} {m t : Str} (ha : isWs a = false)
    (htne : t ≠ []) (htc : ∀ c ∈ t, isWs c = false) :
    jsTrim ((a :: m) ++ t) = (a :: m) ++ t := by
  unfold jsTrim
  have h1 : ((a :: m) ++ t).dropWhile isWs = (a :: m) ++ t :=
    dropWhile_cons_of_neg ha
  rw [h1]
  obtain ⟨c, w, hr⟩ : ∃ c w, t.reverse = c :: w := by
    cases ht : t.reverse with
    | nil => exact absurd (List.reverse_eq_nil_iff.mp ht) htne
    | cons c w => exact ⟨c, w, rfl⟩
  have hcmem : c ∈ t := by
    have hm1 : c ∈ t.reverse := by rw [hr]; exact List.mem_cons_self _ _
    exact List.mem_reverse.mp hm1
  have h2 : ((a :: m) ++ t).reverse = c :: (w ++ (a :: m).reverse) := by
    rw [List.reverse_append, hr]; rfl
  rw [h2, dropWhile_cons_of_neg (htc c hcmem), ← h2, List.reverse_reverse]

/-- Helper: lowercasing distributes over concatenation. -/
theorem jsToLower_append (x y : Str) :
    jsToLower (x ++ y) = jsToLower x ++ jsToLower y := by
  simp [jsToLower]

/-- Helper: takeWhile keeps a list every element of which satisfies the
predicate. -/
theorem takeWhile_all {p : Char → Bool} {l : Str} (h : ∀ c ∈ l, p c = true) :
    l.takeWhile p = l := by
  induction l with
  | nil => rfl
  | cons a w ih =>
    rw [List.takeWhile_cons, h a (List.mem_cons_self _ _)]
    simp [ih fun c hc => h c (List.mem_cons_of_mem _ hc)]

/-- Helper: the second split component after the persona command prefix is
the space-free token that follows it. -/
theorem jsSecond_persona (u : Str) (hu : ∀ c ∈ u, (c != ' ') = true) :
    jsSecond (chars "/persona " ++ u) = some u := by
  show some (u.takeWhile (fun c => c != ' ')) = some u
  exact congrArg some (takeWhile_all hu)

/-- Helper: every string starts with itself as prefix. -/
theorem strStarts_self_append (p x : Str) : strStarts p (p ++ x) = true := by
  rw [strStarts, List.isPrefixOf_iff_prefix]
  exact List.prefix_append p x

/-- Helper: the registry of the default configuration holds exactly the
five persona names of the source literal. -/
theorem registered_default (p : Str) :
    isRegistered defaultConfig p = true ↔
      p = chars "sas" ∨ p = chars "sql" ∨ p = chars "mentor" ∨
      p = chars "debugger" ∨ p = chars "teacher" := by
  simp only [isRegistered, lookupPersona, defaultConfig, defaultPersonas, List.lookup]
  rcases h1 : p == chars "sas" with _|_ <;>
  rcases h2 : p == chars "sql" with _|_ <;>
  rcases h3 : p == chars "mentor" with _|_ <;>
  rcases h4 : p == chars "debugger" with _|_ <;>
  rcases h5 : p == chars "teacher" with _|_ <;>
    simp_all [beq_iff_eq]

/-- Helper: no registry key starts with the persona command remainder (all
keys are shorter). -/
theorem persona_token_not_registered (t : Str) (htne : t ≠ []) :
    isRegistered defaultConfig (chars "persona " ++ t) = false := by
  rw [Bool.eq_false_iff]
  intro h
  rw [registered_default] at h
  have htl : 1 ≤ t.length := List.length_pos.mpr htne
  rcases h with h|h|h|h|h <;>
    (have hc := congrArg List.length h;
     simp only [List.length_append,
       show (chars "persona ").length = 8 from rfl,
       show (chars "sas").length = 3 from rfl,
       show (chars "sql").length = 3 from rfl,
       show (chars "mentor").length = 6 from rfl,
       show (chars "debugger").length = 8 from rfl,
       show (chars "teacher").length = 7 from rfl] at hc;
     omega)


/-- Helper: one handler invocation keeps the active persona a registered
key (the only branches that change it require a successful registry
lookup). -/
theorem handleLine_persona_registered (cfg : Config) (gw : Str → Str → Except Str Str)
    (st : SessionState) (line : Str) (h : isRegistered cfg st.activePersona = true) :
    isRegistered cfg ((handleLine cfg gw st line).st).activePersona = true := by
  simp only [handleLine]
  split_ifs
  all_goals try exact h
  all_goals try (first | exact (by assumption : _ ∧ _).2 | assumption)
  all_goals try (cases hj : jsSecond (jsToLower (jsTrim line)) <;> dsimp only <;>
    first
      | (split_ifs <;> exact h)
      | exact h)
  all_goals
    cases hp : handlePrompt cfg gw line st.activePersona with
    | mk call res => cases res <;> exact h

/-- Helper: a whole run keeps the active persona a registered key. -/
theorem runSession_persona_registered (cfg : Config) (gw : Str → Str → Except Str Str)
    (lines : List Str) : ∀ st : SessionState, isRegistered cfg st.activePersona = true →
    isRegistered cfg (runSession cfg gw st lines).st.activePersona = true := by
  induction lines with
  | nil => intro st h; simpa [runSession] using h
  | cons line rest ih =>
    intro st h
    simp only [runSession]
    split_ifs with hc
    · exact handleLine_persona_registered cfg gw st line h
    · exact ih _ (handleLine_persona_registered cfg gw st line h)


/-- C3 counterexample: the token SAS is not a registry key, yet entering
the persona command with it switches the active persona (to its lowercase
form) instead of leaving it unchanged with an unknown-persona error,
because the handler matches the lowercased token. -/
theorem C3_counterexample :
    isRegistered defaultConfig (chars "SAS") = false ∧
    handleLine defaultConfig gwEcho ⟨chars "sql", false⟩ (chars "/persona SAS") =
      { st := ⟨chars "sas", false⟩,
        outs := [Out.personaSwitched (chars "sas"), Out.welcome (chars "sas")],
        calls := [], logged := [], closed := false, reprompted := true, failed := none } := by
  exact ⟨by decide, rfl⟩

/-- C3 amended: for every registered persona name p, the shorthand /p and
the persona command with p switch the active persona to p; a token whose
lowercase form is not registered leaves the active persona unchanged and
emits the unknown-persona error; and the active persona remains a valid
registry key along any run, provided it starts as one (as the built-in
default does). -/
theorem C3_amended_persona_switching :
    (∀ p, isRegistered defaultConfig p = true →
      ∀ (gw : Str → Str → Except Str Str) (st : SessionState),
        handleLine defaultConfig gw st (chars "/" ++ p) =
          { st := ⟨p, st.mock⟩,
            outs := [Out.personaSwitched p, Out.welcome p],
            calls := [], logged := [], closed := false, reprompted := true, failed := none } ∧
        handleLine defaultConfig gw st (chars "/persona " ++ p) =
          { st := ⟨p, st.mock⟩,
            outs := [Out.personaSwitched p, Out.welcome p],
            calls := [], logged := [], closed := false, reprompted := true, failed := none }) ∧
    (∀ (t : Str) (gw : Str → Str → Except Str Str) (st : SessionState), tokenOK t →
      isRegistered defaultConfig (jsToLower t) = false →
      handleLine defaultConfig gw st (chars "/persona " ++ t) =
        { st := st, outs := [Out.unknownPersona (jsToLower t)], calls := [], logged := [],
          closed := false, reprompted := true, failed := none }) ∧
    (∀ (cfg : Config) (gw : Str → Str → Except Str Str) (lines : List Str)
        (st : SessionState),
      isRegistered cfg st.activePersona = true →
      isRegistered cfg (runSession cfg gw st lines).st.activePersona = true) := by
  refine ⟨?_, ?_, ?_⟩
  · intro p hp gw st
    rcases (registered_default p).mp hp with rfl | rfl | rfl | rfl | rfl <;>
      exact ⟨rfl, rfl⟩
  · intro t gw st htok hreg
    obtain ⟨htne, htc⟩ := htok
    have hcmd : jsTrim (chars "/persona " ++ t) = chars "/persona " ++ t := by
      rw [show chars "/persona " ++ t = ('/' :: chars "persona ") ++ t from rfl]
      exact jsTrim_eq_self_append (by decide) htne htc
    have hlow : jsToLower (chars "/persona " ++ t) = chars "/persona " ++ jsToLower t := by
      rw [jsToLower_append, show jsToLower (chars "/persona ") = chars "/persona " from rfl]
    have hlowtok : ∀ c ∈ jsToLower t, (c != ' ') = true := by
      intro c hc
      obtain ⟨c0, hc0, rfl⟩ := List.mem_map.mp hc
      simpa using toLowerChar_ne_space (isWs_space_of_eq (htc c0 hc0))
    have hsec : jsSecond (chars "/persona " ++ jsToLower t) = some (jsToLower t) :=
      jsSecond_persona _ hlowtok
    have halnum : hasAlnum (chars "/persona " ++ t) = true := by
      rw [hasAlnum, List.any_append,
          show (chars "/persona ").any isAsciiAlnum = true from rfl, Bool.true_or]
    simp only [handleLine, hcmd, hlow, hsec]
    rw [if_neg (show ¬(chars "/persona " ++ t = []) from by simp [chars])]
    rw [if_neg (show ¬(¬hasAlnum (chars "/persona " ++ t) = true) from by
          rw [halnum]; simp)]
    rw [if_neg (show ¬(strStarts (chars "/") (chars "/persona " ++ t) = true ∧
          isRegistered defaultConfig (List.drop 1 (chars "/persona " ++ t)) = true) from by
        intro hand
        have hd : List.drop 1 (chars "/persona " ++ t) = chars "persona " ++ t := rfl
        rw [hd, persona_token_not_registered t htne] at hand
        exact Bool.noConfusion hand.2)]
    rw [if_pos (strStarts_self_append (chars "/persona ") (jsToLower t))]
    simp only [Option.getD_some]
    rw [if_neg (show ¬(isRegistered defaultConfig (jsToLower t) = true) from by
          rw [hreg]; simp)]
  · intro cfg gw lines st h
    exact runSession_persona_registered cfg gw lines st h


/-- Witness for C3 at the persona sql, the unknown token zzz, and a run
from the default state. -/
theorem C3_amended_persona_switching_witness :
    (isRegistered defaultConfig (chars "sql") = true ∧
      handleLine defaultConfig gwEcho st0 (chars "/" ++ chars "sql") =
        { st := ⟨chars "sql", st0.mock⟩,
          outs := [Out.personaSwitched (chars "sql"), Out.welcome (chars "sql")],
          calls := [], logged := [], closed := false, reprompted := true, failed := none }) ∧
    (tokenOK (chars "zzz") ∧
      isRegistered defaultConfig (jsToLower (chars "zzz")) = false ∧
      handleLine defaultConfig gwEcho st0 (chars "/persona " ++ chars "zzz") =
        { st := st0, outs := [Out.unknownPersona (jsToLower (chars "zzz"))], calls := [],
          logged := [], closed := false, reprompted := true, failed := none }) ∧
    (isRegistered defaultConfig st0.activePersona = true ∧
      isRegistered defaultConfig
        (runSession defaultConfig gwEcho st0 [chars "/sql", chars "hello"]).st.activePersona =
        true) :=
  ⟨⟨by decide,
    (C3_amended_persona_switching.1 (chars "sql") (by decide) gwEcho st0).1⟩,
   ⟨⟨by decide, by decide⟩, by decide,
    C3_amended_persona_switching.2.1 (chars "zzz") gwEcho st0 ⟨by decide, by decide⟩
      (by decide)⟩,
   ⟨by decide,
    C3_amended_persona_switching.2.2 defaultConfig gwEcho [chars "/sql", chars "hello"] st0
      (by decide)⟩⟩


/-- Helper: lowercasing does not affect whether a string starts with the
slash. -/
theorem strStarts_slash_toLower (v : Str) :
    strStarts (chars "/") (jsToLower v) = strStarts (chars "/") v := by
  cases v with
  | nil => rfl
  | cons c l =>
    by_cases hc : c = '/'
    · subst hc
      show List.isPrefixOf ['/'] (toLowerChar '/' :: jsToLower l) =
        List.isPrefixOf ['/'] ('/' :: l)
      rw [show toLowerChar '/' = '/' from by decide]
      simp [List.isPrefixOf]
    · have h2 : toLowerChar c ≠ '/' := fun he => hc ((toLowerChar_eq_low (by decide)).mp he)
      show List.isPrefixOf ['/'] (toLowerChar c :: jsToLower l) =
        List.isPrefixOf ['/'] (c :: l)
      simp [List.isPrefixOf, beq_iff_eq, Ne.symm hc, Ne.symm h2]

/-- Helper: a string starting with a longer prefix starts with its head. -/
theorem strStarts_head {a : Char} {r s : Str} (h : strStarts (a :: r) s = true) :
    strStarts [a] s = true := by
  rw [strStarts, List.isPrefixOf_iff_prefix] at h ⊢
  exact List.IsPrefix.trans ⟨r, rfl⟩ h

/-- C5 counterexample: with the configured exit token Quit (capitalized),
entering Quit itself does not terminate: the lowercased input quit is not
a member of the configured list, so the line falls through to the query
branch and a further prompt is issued. -/
theorem C5_counterexample :
    (chars "Quit") ∈ cfgQuit.exitCommands ∧
    (handleLine cfgQuit gwEcho st0 (chars "Quit")).closed = false ∧
    Out.farewell ∉ (handleLine cfgQuit gwEcho st0 (chars "Quit")).outs ∧
    (handleLine cfgQuit gwEcho st0 (chars "Quit")).reprompted = true := by
  exact ⟨by decide, rfl, by decide, rfl⟩

/-- C5 amended: for every configured exit token that is entirely
lowercase, does not begin with a slash and is not the help alias, entering
any letter-case variant of it as a trimmed line containing an alphanumeric
character emits the farewell, closes the input stream, terminates the loop
and produces no further prompt. -/
theorem C5_amended_exit_case_insensitive (cfg : Config)
    (gw : Str → Str → Except Str Str) (st : SessionState) (t v : Str)
    (h1 : t ∈ cfg.exitCommands)
    (h2 : jsToLower t = t)
    (h3 : strStarts (chars "/") t = false)
    (h4 : t ≠ chars "help")
    (h5 : jsToLower v = t)
    (h6 : jsTrim v = v)
    (h7 : hasAlnum v = true) :
    handleLine cfg gw st v =
      { st := st, outs := [Out.farewell], calls := [], logged := [],
        closed := true, reprompted := false, failed := none } := by
  have hvne : v ≠ [] := by
    intro hv; subst hv; exact Bool.noConfusion h7
  have hv3 : strStarts (chars "/") v = false := by
    rw [← strStarts_slash_toLower v, h5]; exact h3
  simp only [handleLine, h6, h5]
  rw [if_neg hvne]
  rw [if_neg (show ¬(¬hasAlnum v = true) from by rw [h7]; simp)]
  rw [if_neg (show ¬(strStarts (chars "/") v = true ∧
        isRegistered cfg (List.drop 1 v) = true) from by
      intro hand
      rw [hv3] at hand
      exact Bool.noConfusion hand.1)]
  rw [if_neg (show ¬(strStarts (chars "/persona ") t = true) from by
      intro hpre
      have hh : strStarts (chars "/") t = true :=
        strStarts_head (show strStarts ('/' :: chars "persona ") t = true from hpre)
      rw [h3] at hh
      exact Bool.noConfusion hh)]
  rw [if_neg (show ¬(v = chars "/personas") from by
      intro hv
      subst hv
      rw [show jsToLower (chars "/personas") = chars "/personas" from rfl] at h5
      subst h5
      exact Bool.noConfusion ((rfl : strStarts (chars "/") (chars "/personas") = true).symm.trans h3))]
  rw [if_neg (show ¬(v = chars "/help" ∨ v = chars "help" ∨ v = chars "?") from by
      rintro (hv | hv | hv) <;> subst hv
      · rw [show jsToLower (chars "/help") = chars "/help" from rfl] at h5
        subst h5
        exact Bool.noConfusion ((rfl : strStarts (chars "/") (chars "/help") = true).symm.trans h3)
      · rw [show jsToLower (chars "help") = chars "help" from rfl] at h5
        exact h4 h5.symm
      · exact Bool.noConfusion ((rfl : hasAlnum (chars "?") = false).symm.trans h7))]
  rw [if_neg (show ¬(t = chars "/mock" ∨ strStarts (chars "/mock ") t = true) from by
      rintro (hv | hv)
      · subst hv
        exact Bool.noConfusion ((rfl : strStarts (chars "/") (chars "/mock") = true).symm.trans h3)
      · have hh : strStarts (chars "/") t = true :=
          strStarts_head (show strStarts ('/' :: chars "mock ") t = true from hv)
        rw [h3] at hh
        exact Bool.noConfusion hh)]
  rw [if_pos h1]

/-- Witness for C5 at the default token quit and the variant QUIT. -/
theorem C5_amended_exit_case_insensitive_witness :
    ((chars "quit") ∈ defaultConfig.exitCommands) ∧
    (jsToLower (chars "quit") = chars "quit") ∧
    (strStarts (chars "/") (chars "quit") = false) ∧
    (chars "quit" ≠ chars "help") ∧
    (jsToLower (chars "QUIT") = chars "quit") ∧
    (jsTrim (chars "QUIT") = chars "QUIT") ∧
    (hasAlnum (chars "QUIT") = true) ∧
    handleLine defaultConfig gwEcho st0 (chars "QUIT") =
      { st := st0, outs := [Out.farewell], calls := [], logged := [],
        closed := true, reprompted := false, failed := none } :=
  ⟨by decide, by decide, by decide, by decide, by decide, by decide, by decide,
    C5_amended_exit_case_insensitive defaultConfig gwEcho st0 (chars "quit") (chars "QUIT")
      (by decide) (by decide) (by decide) (by decide) (by decide) (by decide) (by decide)⟩


set_option maxHeartbeats 2000000 in
/-- Helper: the mock-independent observables of one handler invocation do
not depend on the mock flag. -/
theorem handleLine_mock_indep (cfg : Config) (gw : Str → Str → Except Str Str)
    (line : Str) (p : Str) (b b' : Bool) :
    obsPart (handleLine cfg gw ⟨p, b⟩ line) = obsPart (handleLine cfg gw ⟨p, b'⟩ line) := by
  conv_lhs => simp only [handleLine]
  conv_rhs => simp only [handleLine]
  by_cases h1 : jsTrim line = []
  · rw [if_pos h1, if_pos h1]; exact rfl
  rw [if_neg h1, if_neg h1]
  by_cases h2 : ¬hasAlnum (jsTrim line) = true
  · rw [if_pos h2, if_pos h2]; exact rfl
  rw [if_neg h2, if_neg h2]
  by_cases h3 : strStarts (chars "/") (jsTrim line) = true ∧
      isRegistered cfg (List.drop 1 (jsTrim line)) = true
  · rw [if_pos h3, if_pos h3]; exact rfl
  rw [if_neg h3, if_neg h3]
  by_cases h4 : strStarts (chars "/persona ") (jsToLower (jsTrim line)) = true
  · rw [if_pos h4, if_pos h4]
    by_cases h4b : isRegistered cfg ((jsSecond (jsToLower (jsTrim line))).getD []) = true
    · rw [if_pos h4b, if_pos h4b]; exact rfl
    · rw [if_neg h4b, if_neg h4b]; exact rfl
  rw [if_neg h4, if_neg h4]
  by_cases h5 : jsTrim line = chars "/personas"
  · rw [if_pos h5, if_pos h5]; exact rfl
  rw [if_neg h5, if_neg h5]
  by_cases h6 : jsTrim line = chars "/help" ∨ jsTrim line = chars "help" ∨
      jsTrim line = chars "?"
  · rw [if_pos h6, if_pos h6]; exact rfl
  rw [if_neg h6, if_neg h6]
  by_cases h7 : jsToLower (jsTrim line) = chars "/mock" ∨
      strStarts (chars "/mock ") (jsToLower (jsTrim line)) = true
  · rw [if_pos h7, if_pos h7]
    cases jsSecond (jsToLower (jsTrim line)) with
    | none => rfl
    | some a =>
      dsimp only
      by_cases ha : a = chars "on"
      · rw [if_pos ha, if_pos ha]
      rw [if_neg ha, if_neg ha]
      by_cases hb2 : a = chars "off"
      · rw [if_pos hb2, if_pos hb2]
      · rw [if_neg hb2, if_neg hb2]; exact rfl
  rw [if_neg h7, if_neg h7]
  by_cases h8 : jsToLower (jsTrim line) ∈ cfg.exitCommands
  · rw [if_pos h8, if_pos h8]; exact rfl
  rw [if_neg h8, if_neg h8]
  cases hp : handlePrompt cfg gw line p with
  | mk call res => cases res <;> rfl

/-- Helper: the gateway-call trace of a whole run does not depend on the
initial mock flag. -/
theorem runSession_mock_indep (cfg : Config) (gw : Str → Str → Except Str Str)
    (lines : List Str) : ∀ (p : Str) (b b' : Bool),
    (runSession cfg gw ⟨p, b⟩ lines).calls = (runSession cfg gw ⟨p, b'⟩ lines).calls := by
  induction lines with
  | nil => intro p b b'; rfl
  | cons line rest ih =>
    intro p b b'
    have hobs := handleLine_mock_indep cfg gw line p b b'
    simp only [obsPart, Prod.mk.injEq] at hobs
    obtain ⟨hper, hcalls, hlog, hclosed, hfailed⟩ := hobs
    simp only [runSession]
    by_cases hstop : (handleLine cfg gw ⟨p, b⟩ line).closed = true ∨
        ((handleLine cfg gw ⟨p, b⟩ line).failed).isSome = true
    · rw [if_pos hstop, if_pos (by rw [← hclosed, ← hfailed]; exact hstop)]
      exact hcalls
    · rw [if_neg hstop, if_neg (by rw [← hclosed, ← hfailed]; exact hstop)]
      dsimp only
      rw [hcalls]
      have heta : (handleLine cfg gw ⟨p, b'⟩ line).st =
          ⟨(handleLine cfg gw ⟨p, b⟩ line).st.activePersona,
           (handleLine cfg gw ⟨p, b'⟩ line).st.mock⟩ := by
        rw [hper]
      rw [heta]
      exact congrArg _ (ih ((handleLine cfg gw ⟨p, b⟩ line).st.activePersona)
        ((handleLine cfg gw ⟨p, b⟩ line).st.mock) ((handleLine cfg gw ⟨p, b'⟩ line).st.mock))


/-- C10: the mock flag does not influence the query path: two runs on the
same lines differing only in the initial mock flag produce identical
gateway-call traces (the gateway client never reads the flag), and the
mock command branches change only the stored flag and print a
confirmation, performing no gateway call. -/
theorem C10_mock_flag_noninterference :
    (∀ (cfg : Config) (gw : Str → Str → Except Str Str) (lines : List Str)
        (p : Str) (b1 b2 : Bool),
      (runSession cfg gw ⟨p, b1⟩ lines).calls = (runSession cfg gw ⟨p, b2⟩ lines).calls) ∧
    (∀ (gw : Str → Str → Except Str Str) (st : SessionState),
      handleLine defaultConfig gw st (chars "/mock on") =
        { st := ⟨st.activePersona, true⟩, outs := [Out.mockSet true], calls := [],
          logged := [], closed := false, reprompted := true, failed := none } ∧
      handleLine defaultConfig gw st (chars "/mock off") =
        { st := ⟨st.activePersona, false⟩, outs := [Out.mockSet false], calls := [],
          logged := [], closed := false, reprompted := true, failed := none }) :=
  ⟨fun cfg gw lines p b1 b2 => runSession_mock_indep cfg gw lines p b1 b2,
   fun _ _ => ⟨rfl, rfl⟩⟩

end SasCopilot
